import Mathlib

/-!
Shallow embedding of `pkg/flowcontrols/remote/flowcontrol_wrapper.go`
(kubegateway): the per-target flow-control cache, the local and remote
(global) limiter wrappers and their `Sync` reconciliation, the meter's
in-flight publication and sliding-window rate average, and the
global-coordination predicate `EnableGlobalFlowControl`.

Machine integers: Go `int32` values are modelled as `Int`; the `uint32(x)`
conversion applied at `Resize` call sites is modelled explicitly by
`uint32ofInt` (reduction mod 2^32, matching two's-complement
reinterpretation). Go `float64` bucket values are modelled as exact
rationals `ℚ` for the averaging algebra, and by an explicit NaN-or-rational
type `F64` where IEEE-754 comparison semantics matter.

Channels: the meter's depth-1 `inflightChan` is a single-slot mailbox
(`Option Int`); a remote wrapper's `stopCh` is modelled by a `stopChClosed`
flag, and wrappers torn down by `stopRemoteWrapper` are retained in a ghost
`tornDown` list so that "its stop channel was closed" is observable.

Ghost instrumentation (does not influence any behaviour): `builds` counts
constructions of fresh instrumented limiters (`newMeterFlowControl`), and
`resizeCount` on a limiter counts `Resize` calls, so that "no rebuild and
no resize" is expressible as state equality.
-/

namespace KubeGateway

/-- Limit strategies of `proxyv1alpha1.LimitStrategy` (the closed set used by
this file: Unlimited, MaxRequestsInflight, TokenBucket, GlobalAllocateLimit,
GlobalCountLimit). -/
inductive LimitStrategy where
  | unlimited
  | maxRequestsInflight
  | tokenBucket
  | globalAllocateLimit
  | globalCountLimit
deriving DecidableEq, Repr

/-- Limiter types of `proxyv1alpha1.FlowControlSchemaType`. -/
inductive FlowControlSchemaType where
  | unknown
  | unlimited
  | maxRequestsInflight
  | tokenBucket
  | globalMaxRequestsInflight
  | globalTokenBucket
deriving DecidableEq, Repr

/-- `proxyv1alpha1.MaxRequestsInflightFlowControlSchema`: a max-inflight
ceiling (`Max int32`). -/
structure MaxRequestsInflightFlowControlSchema where
  max : Int
deriving DecidableEq, Repr

/-- `proxyv1alpha1.TokenBucketFlowControlSchema`: `QPS int32`, `Burst int32`. -/
structure TokenBucketFlowControlSchema where
  qps : Int
  burst : Int
deriving DecidableEq, Repr

/-- `proxyv1alpha1.FlowControlSchema`: the locally-scoped configuration unit.
Each detail variant is an optional pointer in Go; `none` models `nil`. -/
structure FlowControlSchema where
  name : String
  strategy : LimitStrategy
  maxRequestsInflight : Option MaxRequestsInflightFlowControlSchema
  tokenBucket : Option TokenBucketFlowControlSchema
  globalMaxRequestsInflight : Option MaxRequestsInflightFlowControlSchema
  globalTokenBucket : Option TokenBucketFlowControlSchema
deriving DecidableEq, Repr

/-- `proxyv1alpha1.RateLimitItemConfiguration`: the remotely-scoped
configuration unit (name, strategy, and the embedded `LimitItemDetail`
holding the optional max-inflight / token-bucket details, flattened here). -/
structure RateLimitItemConfiguration where
  name : String
  strategy : LimitStrategy
  maxRequestsInflight : Option MaxRequestsInflightFlowControlSchema
  tokenBucket : Option TokenBucketFlowControlSchema
deriving DecidableEq, Repr

/-- Go `uint32(x)` conversion of an `int32` value: two's-complement
reinterpretation, i.e. reduction mod 2^32. -/
def uint32ofInt (x : Int) : Nat :=
  (x % (2 : Int) ^ 32).toNat

/-- Go `int32` wrap-around addition result: normalizes into
[-2^31, 2^31). Used for the meter's atomic in-flight counter. -/
def int32wrap (x : Int) : Int :=
  (x + 2 ^ 31) % 2 ^ 32 - 2 ^ 31

/-- Modelled from the spec: the primitive limiter composed by this core
(`flowcontrol.FlowControl`, out of scope / not under src), as observed
through the operations this file calls: `Type()` and `Resize(a, b)`.
`primary`/`secondary` record the two `uint32` sizing parameters
(max-inflight ceiling, or QPS and burst). `resizeCount` is a ghost counter
of `Resize` calls (the spec's "injected counter on the underlying
primitive"). -/
structure FlowControl where
  fcType : FlowControlSchemaType
  primary : Nat
  secondary : Nat
  resizeCount : Nat
deriving DecidableEq, Repr

/-- `Resize(primary, secondary)` on the primitive limiter: installs the new
sizing parameters (state such as live tokens is external and out of scope). -/
def FlowControl.Resize (fc : FlowControl) (a b : Nat) : FlowControl :=
  { fc with primary := a, secondary := b, resizeCount := fc.resizeCount + 1 }

/-- Modelled from the spec: `flowcontrol.GuessFlowControlSchemaType` (not
under src) determines the limiter type from the schema's populated detail
variant ("Exactly one detail variant is populated per strategy family"). -/
def GuessFlowControlSchemaType (schema : FlowControlSchema) : FlowControlSchemaType :=
  if schema.maxRequestsInflight.isSome then .maxRequestsInflight
  else if schema.tokenBucket.isSome then .tokenBucket
  else if schema.globalMaxRequestsInflight.isSome then .globalMaxRequestsInflight
  else if schema.globalTokenBucket.isSome then .globalTokenBucket
  else if schema.strategy = .unlimited then .unlimited
  else .unknown

/-- Modelled from the spec: `flowcontrol.GetFlowControlTypeFromLimitItem`
(not under src) determines the limiter type from the populated detail of a
`RateLimitItemConfiguration`'s `LimitItemDetail`. -/
def GetFlowControlTypeFromLimitItem (item : RateLimitItemConfiguration) : FlowControlSchemaType :=
  if item.maxRequestsInflight.isSome then .maxRequestsInflight
  else if item.tokenBucket.isSome then .tokenBucket
  else .unknown

/-- Modelled from the spec: `flowcontrol.NewFlowControl(schema)` (not under
src) builds a fresh primitive limiter of the type guessed from the schema,
sized from its populated detail. -/
def NewFlowControl (schema : FlowControlSchema) : FlowControl :=
  let t := GuessFlowControlSchemaType schema
  match schema.maxRequestsInflight, schema.tokenBucket with
  | some d, _ => { fcType := t, primary := uint32ofInt d.max, secondary := 0, resizeCount := 0 }
  | none, some d =>
      { fcType := t, primary := uint32ofInt d.qps, secondary := uint32ofInt d.burst,
        resizeCount := 0 }
  | none, none => { fcType := t, primary := 0, secondary := 0, resizeCount := 0 }

/-- `toFlowControlSchema`: converts a remote `RateLimitItemConfiguration` to
an equivalent local-style `FlowControlSchema` (name, strategy, and whichever
of the two details is populated, max-inflight taking priority). -/
def toFlowControlSchema (limitItemConfig : RateLimitItemConfiguration) : FlowControlSchema :=
  let schema : FlowControlSchema :=
    { name := limitItemConfig.name, strategy := limitItemConfig.strategy,
      maxRequestsInflight := none, tokenBucket := none,
      globalMaxRequestsInflight := none, globalTokenBucket := none }
  match limitItemConfig.maxRequestsInflight, limitItemConfig.tokenBucket with
  | some d, _ => { schema with maxRequestsInflight := some { max := d.max } }
  | none, some d => { schema with tokenBucket := some { qps := d.qps, burst := d.burst } }
  | none, none => schema

/-- `EnableGlobalFlowControl(schema)`: the global-coordination predicate —
strategy is GlobalAllocateLimit or GlobalCountLimit and a global detail is
carried. -/
def EnableGlobalFlowControl (schema : FlowControlSchema) : Bool :=
  match schema.strategy with
  | .globalAllocateLimit | .globalCountLimit =>
      schema.globalTokenBucket.isSome || schema.globalMaxRequestsInflight.isSome
  | _ => false

/-- Modelled from the spec: the counter-aware limiter built by
`newFlowControlCounter` (not under src). It wraps the fresh instrumented
limiter `fc`, remembers the item it was built from, whether a counter
callback was obtained from the global counter provider (`hasCounter`), and
its abstract responses to the counter-aware contract
(`expectToken/currentToken/setLimit`). Its `Type()` delegates to `fc`. -/
structure GlobalCounterFlowControl where
  fc : FlowControl
  limitItem : RateLimitItemConfiguration
  hasCounter : Bool
  expectTokenVal : Int
  currentTokenVal : Int
  setLimitVal : Bool
deriving DecidableEq, Repr

/-- `remoteWrapper`: owns the optional counter-aware global limiter, the
stored remote configuration, and its stop channel (modelled by a closed
flag). `builds` is a ghost counter of `newFlowControl` constructions. -/
structure remoteWrapper where
  inner : Option GlobalCounterFlowControl
  remoteConfig : RateLimitItemConfiguration
  stopChClosed : Bool
  builds : Nat
deriving DecidableEq, Repr

/-- The global counter provider's registration state, as touched by this
file: `Stop(name)` removes every registration under `name`; `Add(name, t, _)`
prepends a registration `(name, t)`. -/
abbrev GlobalCounterState := List (String × FlowControlSchemaType)

/-- `GlobalCounterProvider.Stop(name)`: drop all registrations for `name`. -/
def counterStop (p : GlobalCounterState) (name : String) : GlobalCounterState :=
  List.filter (fun e => e.1 ≠ name) p

/-- `GlobalCounterProvider.Add(name, t, owner)`: record a registration. -/
def counterAdd (p : GlobalCounterState) (name : String) (t : FlowControlSchemaType) :
    GlobalCounterState :=
  (name, t) :: p

/-- `flowControlCache` together with its embedded `localWrapper`: the local
wrapper's held limiter (`localFC`, nil until first sync) and stored schema
(`localConfig`), the optional remote wrapper, and ghost fields: `tornDown`
retains wrappers whose stop channel `stopRemoteWrapper` closed, and `builds`
counts `newMeterFlowControl` constructions. -/
structure flowControlCache where
  localFC : Option FlowControl
  localConfig : FlowControlSchema
  remote : Option remoteWrapper
  tornDown : List remoteWrapper
  builds : Nat
deriving DecidableEq, Repr

/-- `flowControlCache.stopRemoteWrapper`: if a remote wrapper is present,
close its stop channel; clear the remote field. The closed wrapper moves to
the ghost `tornDown` list. -/
def stopRemoteWrapper (f : flowControlCache) : flowControlCache :=
  match f.remote with
  | some r =>
      { f with remote := none, tornDown := { r with stopChClosed := true } :: f.tornDown }
  | none => { f with remote := none }

/-- `flowControlCache.newMeterFlowControl(schema)`: builds a fresh primitive
limiter wrapped with the meter decorator (the decorator delegates `Type` and
`Resize`, so it is transparent here); bumps the ghost construction counter. -/
def newMeterFlowControl (f : flowControlCache) (schema : FlowControlSchema) :
    flowControlCache × FlowControl :=
  ({ f with builds := f.builds + 1 }, NewFlowControl schema)

/-- `localWrapper.Sync(schema)`. Returns `none` when the Go code would panic
(nil-pointer dereference of an absent detail in the resize switch). -/
def localWrapperSync (f : flowControlCache) (schema : FlowControlSchema) :
    Option flowControlCache :=
  if schema = f.localConfig then some f
  else
    let f1 := { f with localConfig := schema }
    let newType := GuessFlowControlSchemaType schema
    let rebuild : Bool :=
      match f1.localFC with
      | none => true
      | some fc => fc.fcType ≠ newType
    if rebuild then
      let (f2, fc) := newMeterFlowControl f1 schema
      some { f2 with localFC := some fc }
    else
      match f1.localFC with
      | none => none
      | some fc =>
        let resized : Option flowControlCache :=
          match newType with
          | .maxRequestsInflight =>
              match schema.maxRequestsInflight with
              | some d =>
                  some { f1 with localFC := some (fc.Resize (uint32ofInt d.max) 0) }
              | none => none
          | .tokenBucket =>
              match schema.tokenBucket with
              | some d =>
                  some { f1 with
                    localFC := some (fc.Resize (uint32ofInt d.qps) (uint32ofInt d.burst)) }
              | none => none
          | _ => some f1
        match resized with
        | none => none
        | some f2 =>
            if EnableGlobalFlowControl schema then some f2
            else some (stopRemoteWrapper f2)

/-- `remoteWrapper.newFlowControl(limitItem, newType)`: stop any prior
registration for the item's name; build a fresh instrumented limiter from
the item converted to a local-style schema; register with the global counter
provider (obtaining a counter callback) iff the strategy is
GlobalCountLimit. The abstract contract responses of the new counter-aware
limiter are left at their zero values. -/
def remoteNewFlowControl (w : remoteWrapper) (p : GlobalCounterState)
    (limitItem : RateLimitItemConfiguration) (newType : FlowControlSchemaType) :
    GlobalCounterFlowControl × GlobalCounterState × Nat :=
  let p1 := counterStop p limitItem.name
  let fc := NewFlowControl (toFlowControlSchema limitItem)
  let (p2, hasCounter) :=
    if limitItem.strategy = .globalCountLimit then
      (counterAdd p1 limitItem.name newType, true)
    else (p1, false)
  (⟨fc, limitItem, hasCounter, 0, 0, false⟩, p2, w.builds + 1)

/-- `remoteWrapper.Sync(limitItem)`. `localCfg` is
`f.flowControlCache.local.Config()`, read by the resize branches; `p` is the
global counter provider's state. Returns `none` when the Go code would panic
(nil-pointer dereference of the local configuration's absent global detail). -/
def remoteWrapperSync (w : remoteWrapper) (localCfg : FlowControlSchema)
    (p : GlobalCounterState) (limitItem : RateLimitItemConfiguration) :
    Option (remoteWrapper × GlobalCounterState) :=
  if limitItem = w.remoteConfig then some (w, p)
  else
    let newType := GetFlowControlTypeFromLimitItem limitItem
    let rebuild : Bool :=
      match w.inner with
      | none => true
      | some g => g.fc.fcType ≠ newType || w.remoteConfig.strategy ≠ limitItem.strategy
    if rebuild then
      let (g, p2, b) := remoteNewFlowControl w p limitItem newType
      some ({ w with inner := some g, remoteConfig := limitItem, builds := b }, p2)
    else
      match w.inner with
      | none => none
      | some g =>
        if limitItem.maxRequestsInflight.isSome ∧ g.fc.fcType = .maxRequestsInflight then
          match limitItem.maxRequestsInflight, localCfg.globalMaxRequestsInflight with
          | some d, some gm =>
              let m := if d.max > gm.max then gm.max else d.max
              some ({ w with
                        inner := some { g with fc := g.fc.Resize (uint32ofInt m) 0 },
                        remoteConfig := limitItem }, p)
          | _, none => none
          | none, _ => none
        else if limitItem.tokenBucket.isSome ∧ g.fc.fcType = .tokenBucket then
          match limitItem.tokenBucket, localCfg.globalTokenBucket with
          | some d, some gt =>
              let q := if d.qps > gt.qps then gt.qps else d.qps
              some ({ w with
                        inner := some
                          { g with fc := g.fc.Resize (uint32ofInt q) (uint32ofInt d.burst) },
                        remoteConfig := limitItem }, p)
          | _, none => none
          | none, _ => none
        else
          let (g2, p2, b) := remoteNewFlowControl w p limitItem newType
          some ({ w with inner := some g2, remoteConfig := limitItem, builds := b }, p2)

/-- `remoteWrapper.ExpectToken()`: delegates to the held counter-aware
limiter; sentinel -1 when absent. -/
def remoteExpectToken (w : remoteWrapper) : Int :=
  match w.inner with
  | some g => g.expectTokenVal
  | none => -1

/-- `remoteWrapper.CurrentToken()`: delegates; sentinel -1 when absent. -/
def remoteCurrentToken (w : remoteWrapper) : Int :=
  match w.inner with
  | some g => g.currentTokenVal
  | none => -1

/-- `remoteWrapper.SetLimit(result)`: delegates; sentinel `false` when
absent. The pushed `AcquireResult` payload is opaque to this file. -/
def remoteSetLimit (w : remoteWrapper) : Bool :=
  match w.inner with
  | some g => g.setLimitVal
  | none => false

/-- `QPSMeterBucketLen = 3`: the rate ring's bucket count. -/
def QPSMeterBucketLen : Nat := 3

/-- The meter state touched by `addInflight`: the `int32` atomic in-flight
counter and the depth-1 `inflightChan`, modelled as a single-slot mailbox
(`none` = empty, `some v` = a pending unconsumed value). -/
structure InflightPublishState where
  inflight : Int
  inflightChanSlot : Option Int
deriving DecidableEq, Repr

/-- `meter.addInflight(add)`: atomically adjust the in-flight counter, then
`select { case m.inflightChan <- inflight: default: }` — a non-blocking send
that is dropped when the slot already holds a pending value. -/
def addInflight (m : InflightPublishState) (add : Int) : InflightPublishState :=
  let inflight := int32wrap (m.inflight + add)
  { inflight := inflight,
    inflightChanSlot :=
      match m.inflightChanSlot with
      | none => some inflight
      | some v => some v }

/-- The meter state touched by `calculateAvgRate`, with `float64` values
modelled as exact rationals: the running average, the ring index, and the
ring of the last `QPSMeterBucketLen` instantaneous rates. -/
structure RateMeterState where
  rateAvg : ℚ
  currentIndex : Nat
  counterBuckets : List ℚ
deriving DecidableEq, Repr

/-- The rate state as initialized by `NewFlowControlCache`: zeroed average,
index 0, `QPSMeterBucketLen` zero-initialized buckets. -/
def rateMeterInit : RateMeterState :=
  { rateAvg := 0, currentIndex := 0, counterBuckets := List.replicate QPSMeterBucketLen 0 }

/-- `meter.calculateAvgRate` (exact-arithmetic model), applied to the
instantaneous rate computed by `latestRate()`: read the bucket under the
current index (the source's `lastRate == math.NaN()` reset is inert — an
IEEE equality against NaN never holds, as proved on the `F64` model below —
and exact rationals have no NaN, so it is omitted here); add
`(latestRate - lastRate) / len` to the running average; store `latestRate`
into the bucket; advance the index mod the ring length. -/
def calculateAvgRate (m : RateMeterState) (latestRate : ℚ) : RateMeterState :=
  let lastRate := m.counterBuckets.getD m.currentIndex 0
  let rateAvg := m.rateAvg + (latestRate - lastRate) / (m.counterBuckets.length : ℚ)
  { rateAvg := rateAvg,
    counterBuckets := m.counterBuckets.set m.currentIndex latestRate,
    currentIndex := (m.currentIndex + 1) % m.counterBuckets.length }

/-- The sliding-window invariant of the rate meter: the ring has
`QPSMeterBucketLen` buckets, the index is in range, and the running average
equals the bucket sum divided by the bucket count. -/
def RateInv (m : RateMeterState) : Prop :=
  m.counterBuckets.length = QPSMeterBucketLen ∧
  m.currentIndex < QPSMeterBucketLen ∧
  m.rateAvg = m.counterBuckets.sum / (QPSMeterBucketLen : ℚ)

/-- Go `float64` values as relevant to the NaN-comparison question: NaN, or
a numeric value (modelled as an exact rational). -/
inductive F64 where
  | nan
  | val (q : ℚ)
deriving DecidableEq, Repr

/-- IEEE-754 `==` on `float64`: every comparison involving NaN is false;
numeric values compare by value. -/
def f64BEq : F64 → F64 → Bool
  | .nan, _ => false
  | .val _, .nan => false
  | .val a, .val b => a == b

/-- `math.NaN()`. -/
def mathNaN : F64 := .nan

/-- IEEE addition, NaN-propagating (rounding abstracted away). -/
def f64Add : F64 → F64 → F64
  | .nan, _ => .nan
  | _, .nan => .nan
  | .val a, .val b => .val (a + b)

/-- IEEE subtraction, NaN-propagating (rounding abstracted away). -/
def f64Sub : F64 → F64 → F64
  | .nan, _ => .nan
  | _, .nan => .nan
  | .val a, .val b => .val (a - b)

/-- IEEE division, NaN-propagating (rounding abstracted away; the divisor
here is always the nonzero bucket count). -/
def f64Div : F64 → F64 → F64
  | .nan, _ => .nan
  | _, .nan => .nan
  | .val a, .val b => .val (a / b)

/-- The rate meter state over the `F64` value model. -/
structure RateMeterStateF where
  rateAvg : F64
  currentIndex : Nat
  counterBuckets : List F64
deriving DecidableEq, Repr

/-- `meter.calculateAvgRate` over the `F64` model, with the source's NaN
guard transcribed literally: `if lastRate == math.NaN() { lastRate = 0 }`. -/
def calculateAvgRateF (m : RateMeterStateF) (latestRate : F64) : RateMeterStateF :=
  let lastRate := m.counterBuckets.getD m.currentIndex (.val 0)
  let lastRate := if f64BEq lastRate mathNaN then .val 0 else lastRate
  let rateAvg :=
    f64Add m.rateAvg (f64Div (f64Sub latestRate lastRate) (.val (m.counterBuckets.length : ℚ)))
  { rateAvg := rateAvg,
    counterBuckets := m.counterBuckets.set m.currentIndex latestRate,
    currentIndex := (m.currentIndex + 1) % m.counterBuckets.length }

/-- `meter.calculateAvgRate` over the `F64` model with the NaN guard
removed. -/
def calculateAvgRateFNoGuard (m : RateMeterStateF) (latestRate : F64) : RateMeterStateF :=
  let lastRate := m.counterBuckets.getD m.currentIndex (.val 0)
  let rateAvg :=
    f64Add m.rateAvg (f64Div (f64Sub latestRate lastRate) (.val (m.counterBuckets.length : ℚ)))
  { rateAvg := rateAvg,
    counterBuckets := m.counterBuckets.set m.currentIndex latestRate,
    currentIndex := (m.currentIndex + 1) % m.counterBuckets.length }

/-! Concrete configurations and states used by witnesses and
counterexamples. -/

/-- A local schema: TokenBucket strategy with its token-bucket detail. -/
def schemaTB : FlowControlSchema :=
  { name := "a", strategy := .tokenBucket, maxRequestsInflight := none,
    tokenBucket := some { qps := 5, burst := 10 },
    globalMaxRequestsInflight := none, globalTokenBucket := none }

/-- A local schema: MaxRequestsInflight strategy with its detail; does not
enable global flow control and carries no global details. -/
def schemaMI : FlowControlSchema :=
  { name := "a", strategy := .maxRequestsInflight,
    maxRequestsInflight := some { max := 10 }, tokenBucket := none,
    globalMaxRequestsInflight := none, globalTokenBucket := none }

/-- A local schema for the global strategies: GlobalCountLimit with a global
max-inflight ceiling of 10. -/
def schemaGC : FlowControlSchema :=
  { name := "a", strategy := .globalCountLimit, maxRequestsInflight := none,
    tokenBucket := none, globalMaxRequestsInflight := some { max := 10 },
    globalTokenBucket := none }

/-- A stored remote item: GlobalCountLimit, max-inflight 10. -/
def itemOld : RateLimitItemConfiguration :=
  { name := "a", strategy := .globalCountLimit,
    maxRequestsInflight := some { max := 10 }, tokenBucket := none }

/-- A pushed remote item requesting max-inflight 20 (above the local global
ceiling of 10 in `schemaGC`). -/
def itemNew : RateLimitItemConfiguration :=
  { name := "a", strategy := .globalCountLimit,
    maxRequestsInflight := some { max := 20 }, tokenBucket := none }

/-- A remote wrapper with no counter-aware limiter attached. -/
def wNoInner : remoteWrapper :=
  { inner := none, remoteConfig := itemOld, stopChClosed := false, builds := 0 }

/-- A counter-aware global limiter of max-inflight type sized 10. -/
def gEx : GlobalCounterFlowControl :=
  { fc := { fcType := .maxRequestsInflight, primary := 10, secondary := 0, resizeCount := 0 },
    limitItem := itemOld, hasCounter := true, expectTokenVal := 3, currentTokenVal := 7,
    setLimitVal := true }

/-- A remote wrapper holding `gEx` with stored configuration `itemOld`. -/
def wEx : remoteWrapper :=
  { inner := some gEx, remoteConfig := itemOld, stopChClosed := false, builds := 1 }

/-- `schemaTB` with a different QPS: same type and strategy, so a sync from
`schemaTB` takes the resize path; does not enable global flow control. -/
def schemaTB2 : FlowControlSchema :=
  { schemaTB with tokenBucket := some { qps := 7, burst := 10 } }

/-- A cache holding a token-bucket local limiter synced to `schemaTB`, with
an active remote wrapper. -/
def fEx : flowControlCache :=
  { localFC := some { fcType := .tokenBucket, primary := 5, secondary := 10, resizeCount := 0 },
    localConfig := schemaTB, remote := some wNoInner, tornDown := [], builds := 1 }

end KubeGateway

namespace KubeGateway

/-! Theorems. -/

/-- Helper: replacing the element under an in-range index changes a list's
sum by the difference between the new element and the replaced one. -/
theorem sum_set_getD (l : List ℚ) (i : Nat) (x : ℚ) (h : i < l.length) :
    (l.set i x).sum = l.sum - l.getD i 0 + x := by
  induction l generalizing i with
  | nil => simp at h
  | cons a t ih =>
    cases i with
    | zero =>
      simp only [List.set, List.sum_cons, List.getD_cons_zero]
      ring
    | succ n =>
      simp only [List.set, List.sum_cons, List.getD_cons_succ]
      rw [ih n (by simpa using h)]
      ring

/-- C9: `EnableGlobalFlowControl(schema)` returns true iff `schema.Strategy`
is GlobalAllocateLimit or GlobalCountLimit and at least one of
`schema.GlobalTokenBucket`, `schema.GlobalMaxRequestsInflight` is non-nil. -/
theorem enableGlobalFlowControl_iff (schema : FlowControlSchema) :
    EnableGlobalFlowControl schema = true ↔
      ((schema.strategy = .globalAllocateLimit ∨ schema.strategy = .globalCountLimit) ∧
        (schema.globalTokenBucket ≠ none ∨ schema.globalMaxRequestsInflight ≠ none)) := by
  cases h : schema.strategy <;>
    simp [EnableGlobalFlowControl, h, Option.isSome_iff_ne_none]

/-- C5: `ExpectToken`, `CurrentToken` and `SetLimit` on a remote wrapper
return the sentinels -1, -1 and `false` when no counter-aware limiter is
attached, and delegate to the attached limiter otherwise. -/
theorem remoteTokenOps_delegate_or_sentinel (w : remoteWrapper) :
    (w.inner = none →
      remoteExpectToken w = -1 ∧ remoteCurrentToken w = -1 ∧ remoteSetLimit w = false) ∧
    (∀ g, w.inner = some g →
      remoteExpectToken w = g.expectTokenVal ∧ remoteCurrentToken w = g.currentTokenVal ∧
        remoteSetLimit w = g.setLimitVal) := by
  cases h : w.inner <;>
    simp [remoteExpectToken, remoteCurrentToken, remoteSetLimit, h]

/-- Witness for C5: on a wrapper with no counter-aware limiter attached, the
three operations return the sentinels. -/
theorem remoteTokenOps_delegate_or_sentinel_witness :
    remoteExpectToken wNoInner = -1 ∧ remoteCurrentToken wNoInner = -1 ∧
      remoteSetLimit wNoInner = false :=
  (remoteTokenOps_delegate_or_sentinel wNoInner).1 rfl

/-- C6: syncing either wrapper with a configuration equal to the stored one
is a complete no-op: the equality short-circuit returns before any rebuild,
resize, config store or provider interaction, so the state (ghost
construction and resize counters included) is returned unchanged. -/
theorem sync_identical_config_noop (f : flowControlCache) (w : remoteWrapper)
    (localCfg : FlowControlSchema) (p : GlobalCounterState) :
    localWrapperSync f f.localConfig = some f ∧
      remoteWrapperSync w localCfg p w.remoteConfig = some (w, p) := by
  constructor <;> simp [localWrapperSync, remoteWrapperSync]

/-- C2 counterexample: with a pending unconsumed value 5 in the single-slot
channel, `addInflight 1` adjusts the counter to 1 but does not overwrite the
pending value with the new one — the new value is dropped and 5 remains. -/
theorem addInflight_pending_not_overwritten :
    (addInflight ⟨0, some 5⟩ 1).inflight = 1 ∧
    (addInflight ⟨0, some 5⟩ 1).inflightChanSlot = some 5 ∧
    (addInflight ⟨0, some 5⟩ 1).inflightChanSlot ≠
      some ((addInflight ⟨0, some 5⟩ 1).inflight) := by
  decide

/-- C2 (amended): `addInflight` adjusts the in-flight counter by the delta
(int32 wrap-around) and performs a non-blocking send of the new value: the
value is published only when the slot is empty; when a pending value has not
been consumed, the new value is dropped and the pending value remains. -/
theorem addInflight_adjusts_and_publishes_drop_if_full (m : InflightPublishState) (d : Int) :
    (addInflight m d).inflight = int32wrap (m.inflight + d) ∧
    (addInflight m d).inflightChanSlot =
      (match m.inflightChanSlot with
       | none => some (int32wrap (m.inflight + d))
       | some v => some v) := by
  cases h : m.inflightChanSlot <;> simp [addInflight, h]

/-- C8: an IEEE-754 equality against `math.NaN()` is false for every
`float64` value, so the `lastRate == math.NaN()` reset branch in
`calculateAvgRate` is dead: on all inputs the function equals the variant
with the branch removed. -/
theorem calculateAvgRateF_nan_guard_dead :
    (∀ x : F64, f64BEq x mathNaN = false) ∧
    (∀ (m : RateMeterStateF) (r : F64), calculateAvgRateF m r = calculateAvgRateFNoGuard m r) := by
  constructor
  · intro x
    cases x <;> rfl
  · intro m r
    have h : f64BEq (m.counterBuckets.getD m.currentIndex (.val 0)) mathNaN = false := by
      cases hx : m.counterBuckets.getD m.currentIndex (.val 0) <;> rfl
    simp only [calculateAvgRateF, calculateAvgRateFNoGuard]
    rw [h]
    simp

/-- C7: the rate meter's sliding-window invariant — `rateAvg` equals the sum
of the `QPSMeterBucketLen = 3` counter buckets divided by 3 — holds in the
zero-initialized initial state and is preserved by every `calculateAvgRate`
tick (which adds `(instantRate - bucket[i]) / N` to the average, stores
`instantRate` into `bucket[i]`, and advances `i` mod N). -/
theorem rate_sliding_window_invariant :
    RateInv rateMeterInit ∧
      ∀ (m : RateMeterState) (r : ℚ), RateInv m → RateInv (calculateAvgRate m r) := by
  constructor
  · refine ⟨by simp [rateMeterInit, QPSMeterBucketLen], by simp [rateMeterInit, QPSMeterBucketLen],
      ?_⟩
    simp [rateMeterInit, QPSMeterBucketLen, List.sum_replicate]
  · rintro m r ⟨hlen, hidx, havg⟩
    have hidx' : m.currentIndex < m.counterBuckets.length := by omega
    refine ⟨?_, ?_, ?_⟩
    · simpa [calculateAvgRate] using hlen
    · simp only [calculateAvgRate, hlen]
      exact Nat.mod_lt _ (by simp [QPSMeterBucketLen])
    · simp only [calculateAvgRate]
      rw [sum_set_getD _ _ _ hidx', hlen, havg]
      have h3 : ((QPSMeterBucketLen : ℚ)) ≠ 0 := by simp [QPSMeterBucketLen]
      field_simp
      ring

/-- Witness for C7: one tick from the initial state preserves the
invariant. -/
theorem rate_sliding_window_invariant_witness :
    RateInv (calculateAvgRate rateMeterInit 5) :=
  rate_sliding_window_invariant.2 rateMeterInit 5 rate_sliding_window_invariant.1

/-- C4: on the rebuild path of the remote wrapper's `Sync` (inner limiter
absent, type changed, or strategy changed), the prior registration for the
item's name is removed from the global counter provider, a fresh
instrumented limiter is built from the item converted to a local-style
schema, and a registration is made if and only if the item's strategy is
GlobalCountLimit; the stored configuration becomes the item. -/
theorem remoteSync_rebuild_path (w : remoteWrapper) (localCfg : FlowControlSchema)
    (p : GlobalCounterState) (item : RateLimitItemConfiguration)
    (hne : item ≠ w.remoteConfig)
    (hrb : w.inner = none ∨
      ∃ g, w.inner = some g ∧
        (g.fc.fcType ≠ GetFlowControlTypeFromLimitItem item ∨
          w.remoteConfig.strategy ≠ item.strategy)) :
    remoteWrapperSync w localCfg p item =
      some ({ w with
                inner := some
                  { fc := NewFlowControl (toFlowControlSchema item), limitItem := item,
                    hasCounter := decide (item.strategy = .globalCountLimit),
                    expectTokenVal := 0, currentTokenVal := 0, setLimitVal := false },
                remoteConfig := item, builds := w.builds + 1 },
            if item.strategy = .globalCountLimit then
              counterAdd (counterStop p item.name) item.name
                (GetFlowControlTypeFromLimitItem item)
            else counterStop p item.name) := by
  simp only [remoteWrapperSync, remoteNewFlowControl]
  rw [if_neg hne]
  rcases hrb with h | ⟨g, hg, hor⟩
  · rw [h]
    by_cases hs : item.strategy = .globalCountLimit <;> simp [hs]
  · rw [hg]
    have hb : (decide ¬(g.fc.fcType = GetFlowControlTypeFromLimitItem item) ||
        decide ¬(w.remoteConfig.strategy = item.strategy)) = true := by
      rcases hor with h1 | h1 <;> simp [h1]
    by_cases hs : item.strategy = .globalCountLimit <;> simp [hb, hs]
    all_goals
      intro h1 h2
      rcases hor with h3 | h3
      · exact absurd h1 h3
      · simp [h2, hs] at h3

/-- Witness for C4: a wrapper with no inner limiter synced with a
GlobalCountLimit max-inflight item: the prior registration under the name is
removed, a fresh max-inflight limiter sized 20 is built, and a new
registration is made. -/
theorem remoteSync_rebuild_path_witness :
    remoteWrapperSync wNoInner schemaGC [("a", .tokenBucket)] itemNew =
      some ({ inner := some
                { fc := { fcType := .maxRequestsInflight, primary := 20, secondary := 0,
                          resizeCount := 0 },
                  limitItem := itemNew, hasCounter := true, expectTokenVal := 0,
                  currentTokenVal := 0, setLimitVal := false },
              remoteConfig := itemNew, stopChClosed := false, builds := 1 },
            [("a", .maxRequestsInflight)]) :=
  remoteSync_rebuild_path wNoInner schemaGC [("a", .tokenBucket)] itemNew (by decide) (Or.inl rfl)

/-- C3: on the same-type same-strategy resize path of the remote wrapper's
`Sync`, the limiter is resized to the locally clamped value: for
MaxRequestsInflight to `min(item.max, localConfig.GlobalMaxRequestsInflight.Max)`
(secondary argument 0), and for TokenBucket to QPS
`min(item.qps, localConfig.GlobalTokenBucket.QPS)` with burst taken
unclamped from the item; whenever the requested value exceeds the local
ceiling, the effective value equals the ceiling. -/
theorem remoteSync_resize_clamped (w : remoteWrapper) (g : GlobalCounterFlowControl)
    (localCfg : FlowControlSchema) (p : GlobalCounterState)
    (item : RateLimitItemConfiguration) (hne : item ≠ w.remoteConfig)
    (hg : w.inner = some g) (hstrat : w.remoteConfig.strategy = item.strategy) :
    (∀ d gm, item.maxRequestsInflight = some d → g.fc.fcType = .maxRequestsInflight →
      localCfg.globalMaxRequestsInflight = some gm →
      remoteWrapperSync w localCfg p item =
        some ({ w with
                  inner := some { g with fc := g.fc.Resize (uint32ofInt (min d.max gm.max)) 0 },
                  remoteConfig := item }, p) ∧
      (gm.max < d.max → uint32ofInt (min d.max gm.max) = uint32ofInt gm.max)) ∧
    (∀ d gt, item.maxRequestsInflight = none → item.tokenBucket = some d →
      g.fc.fcType = .tokenBucket → localCfg.globalTokenBucket = some gt →
      remoteWrapperSync w localCfg p item =
        some ({ w with
                  inner := some
                    { g with
                        fc := g.fc.Resize (uint32ofInt (min d.qps gt.qps))
                          (uint32ofInt d.burst) },
                  remoteConfig := item }, p) ∧
      (gt.qps < d.qps → uint32ofInt (min d.qps gt.qps) = uint32ofInt gt.qps)) := by
  constructor
  · intro d gm hd hty hgm
    have hmin : (if gm.max < d.max then gm.max else d.max) = min d.max gm.max := by
      split <;> omega
    constructor
    · simp [remoteWrapperSync, hne, hg, hty, hstrat, hd, hgm,
        GetFlowControlTypeFromLimitItem, hmin]
    · intro h
      congr 1
      omega
  · intro d gt hd0 hd hty hgt
    have hmin : (if gt.qps < d.qps then gt.qps else d.qps) = min d.qps gt.qps := by
      split <;> omega
    constructor
    · simp [remoteWrapperSync, hne, hg, hty, hstrat, hd0, hd, hgt,
        GetFlowControlTypeFromLimitItem, hmin]
    · intro h
      congr 1
      omega

/-- Witness for C3: a remote item requesting max-inflight 20 against a local
global ceiling of 10 resizes the limiter to 10, not 20. -/
theorem remoteSync_resize_clamped_witness :
    remoteWrapperSync wEx schemaGC [] itemNew =
      some ({ wEx with
                inner := some
                  { gEx with
                      fc := { fcType := .maxRequestsInflight, primary := 10, secondary := 0,
                              resizeCount := 1 } },
                remoteConfig := itemNew }, []) ∧
      uint32ofInt (min (20 : Int) 10) = uint32ofInt 10 := by
  have h := (remoteSync_resize_clamped wEx gEx schemaGC [] itemNew (by decide) rfl rfl).1
    { max := 20 } { max := 10 } rfl rfl rfl
  exact ⟨h.1, h.2 (by decide)⟩

/-- C10: the same-type resize branches of the remote wrapper's `Sync`
dereference the local configuration's matching global detail without a nil
check: in the MaxRequestsInflight branch the sync faults (nil-pointer
dereference, modelled as `none`) exactly when the local schema's
GlobalMaxRequestsInflight is nil, and in the TokenBucket branch exactly when
the local GlobalTokenBucket is nil; under the non-nil precondition the fault
branch is unreachable. -/
theorem remoteSync_resize_needs_local_global_detail (w : remoteWrapper)
    (g : GlobalCounterFlowControl) (localCfg : FlowControlSchema) (p : GlobalCounterState)
    (item : RateLimitItemConfiguration) (hne : item ≠ w.remoteConfig)
    (hg : w.inner = some g) (hstrat : w.remoteConfig.strategy = item.strategy) :
    (∀ d, item.maxRequestsInflight = some d → g.fc.fcType = .maxRequestsInflight →
      (remoteWrapperSync w localCfg p item = none ↔
        localCfg.globalMaxRequestsInflight = none)) ∧
    (∀ d, item.maxRequestsInflight = none → item.tokenBucket = some d →
      g.fc.fcType = .tokenBucket →
      (remoteWrapperSync w localCfg p item = none ↔
        localCfg.globalTokenBucket = none)) := by
  constructor
  · intro d hd hty
    cases hl : localCfg.globalMaxRequestsInflight <;>
      simp [remoteWrapperSync, hne, hg, hty, hstrat, hd, hl, GetFlowControlTypeFromLimitItem]
  · intro d hd0 hd hty
    cases hl : localCfg.globalTokenBucket <;>
      simp [remoteWrapperSync, hne, hg, hty, hstrat, hd0, hd, hl,
        GetFlowControlTypeFromLimitItem]

/-- Witness for C10: with the local GlobalMaxRequestsInflight absent, the
max-inflight resize branch faults. -/
theorem remoteSync_resize_needs_local_global_detail_witness :
    remoteWrapperSync wEx schemaMI [] itemNew = none :=
  ((remoteSync_resize_needs_local_global_detail wEx gEx schemaMI [] itemNew (by decide) rfl
    rfl).1 { max := 20 } rfl rfl).mpr rfl

/-- Helper: `stopRemoteWrapper` clears the remote field, and if a remote
wrapper was present, leaves it in the ghost teardown list with its stop
channel closed. -/
theorem stopRemote_clears (f : flowControlCache) :
    (stopRemoteWrapper f).remote = none ∧
      ∀ r, f.remote = some r →
        { r with stopChClosed := true } ∈ (stopRemoteWrapper f).tornDown := by
  cases hr : f.remote <;> simp [stopRemoteWrapper, hr]

/-- C1 counterexample: `fEx` holds an active remote wrapper and a
token-bucket local limiter; syncing the differing schema `schemaMI`
(max-inflight type, strategy not global) takes the rebuild path, which
returns before the teardown check: the remote wrapper survives untouched
(remote field still set, nothing torn down), although the new schema does
not satisfy the global-coordination predicate. -/
theorem localSync_rebuild_skips_teardown :
    schemaMI ≠ fEx.localConfig ∧ EnableGlobalFlowControl schemaMI = false ∧
      (localWrapperSync fEx schemaMI).map (fun f' => f'.remote) = some (some wNoInner) ∧
      (localWrapperSync fEx schemaMI).map (fun f' => f'.tornDown) = some [] := by
  decide

/-- C1 (amended): on the same-type resize path of the local wrapper's
`Sync` with a differing schema, after the limiter is updated, if the new
schema does not satisfy the global-coordination predicate then any active
remote wrapper is torn down: its stop channel is closed and the remote
field is cleared. (On the rebuild path `Sync` returns before this check.) -/
theorem localSync_resize_path_teardown (f : flowControlCache) (schema : FlowControlSchema)
    (fc : FlowControl) (hne : schema ≠ f.localConfig) (hfc : f.localFC = some fc)
    (hty : fc.fcType = GuessFlowControlSchemaType schema)
    (hglob : EnableGlobalFlowControl schema = false) :
    ∃ f', localWrapperSync f schema = some f' ∧ f'.remote = none ∧
      ∀ r, f.remote = some r → { r with stopChClosed := true } ∈ f'.tornDown := by
  cases hmi : schema.maxRequestsInflight with
  | some dmi =>
    have hguess : GuessFlowControlSchemaType schema = .maxRequestsInflight := by
      simp [GuessFlowControlSchemaType, hmi]
    have hc := stopRemote_clears
      { f with localConfig := schema,
               localFC := some (fc.Resize (uint32ofInt dmi.max) 0) }
    refine ⟨_, ?_, hc.1, hc.2⟩
    simp [localWrapperSync, hne, hfc, hty, hguess, hmi, hglob]
  | none =>
    cases htb : schema.tokenBucket with
    | some dtb =>
      have hguess : GuessFlowControlSchemaType schema = .tokenBucket := by
        simp [GuessFlowControlSchemaType, hmi, htb]
      have hc := stopRemote_clears
        { f with localConfig := schema,
                 localFC := some (fc.Resize (uint32ofInt dtb.qps) (uint32ofInt dtb.burst)) }
      refine ⟨_, ?_, hc.1, hc.2⟩
      simp [localWrapperSync, hne, hfc, hty, hguess, hmi, htb, hglob]
    | none =>
      have hc := stopRemote_clears { f with localConfig := schema }
      refine ⟨_, ?_, hc.1, hc.2⟩
      cases hgm : schema.globalMaxRequestsInflight with
      | some dgm =>
        simp [localWrapperSync, GuessFlowControlSchemaType, hne, hfc, hty, hmi, htb, hgm,
          hglob]
      | none =>
        cases hgt : schema.globalTokenBucket with
        | some dgt =>
          simp [localWrapperSync, GuessFlowControlSchemaType, hne, hfc, hty, hmi, htb, hgm,
            hgt, hglob]
        | none =>
          by_cases hs : schema.strategy = .unlimited <;>
            simp [localWrapperSync, GuessFlowControlSchemaType, hne, hfc, hty, hmi, htb,
              hgm, hgt, hs, hglob]

/-- Witness for C1 (amended): resizing `fEx`'s token-bucket limiter to a
non-global schema tears the active remote wrapper down. -/
theorem localSync_resize_path_teardown_witness :
    ∃ f', localWrapperSync fEx schemaTB2 = some f' ∧ f'.remote = none ∧
      ∀ r, fEx.remote = some r → { r with stopChClosed := true } ∈ f'.tornDown :=
  localSync_resize_path_teardown fEx schemaTB2
    { fcType := .tokenBucket, primary := 5, secondary := 10, resizeCount := 0 }
    (by decide) rfl rfl rfl

end KubeGateway
